import Mathlib

/-!
Verification development for the RS-485 master-side transport
(link transport, transaction manager, connection monitor).

The definitions below are a shallow embedding of the TypeScript sources:
`busManager.ts` (BusManager), `rs485Hanlder.ts` (RS485Handler), and the
worker's heartbeat monitor (`startHeartbeatMonitor`,
`markRemoteDisconnected`, `handleRemotePayload`).
-/

/-- A flat JSON value, as used by the line protocol messages. -/
inductive JVal where
  | str (s : String)
  | num (n : Int)
  | bool (b : Bool)
  deriving DecidableEq, Repr

/-- A JSON object: keys in insertion order, as JavaScript objects keep them. -/
abbrev JObj := List (String × JVal)

/-- Field access `obj[k]`: first binding for the key, `none` when absent. -/
def JObj.get (o : JObj) (k : String) : Option JVal :=
  (o.find? (fun p => p.1 == k)).map (fun p => p.2)

/-- Rendering of one value inside `JSON.stringify`. -/
def JVal.render : JVal → String
  | JVal.str s => "\"" ++ s ++ "\""
  | JVal.num n => toString n
  | JVal.bool b => if b then "true" else "false"

/-- `JSON.stringify` on a flat object, keys in insertion order. -/
def stringify (o : JObj) : String :=
  "\x7b" ++ String.intercalate "," (o.map (fun p => "\"" ++ p.1 ++ "\":" ++ p.2.render)) ++ "\x7d"

/-- JavaScript `String(value)` on the values we model. -/
def JVal.toJsString : JVal → String
  | JVal.str s => s
  | JVal.num n => toString n
  | JVal.bool b => if b then "true" else "false"

/-- A whitespace character for JavaScript `String#trim`. -/
def isJsSpace (c : Char) : Bool :=
  c == ' ' || c == '\t' || c == '\n' || c == '\r'

/-- JavaScript `String#trim`: strip leading and trailing whitespace. -/
def jsTrim (s : String) : String :=
  ⟨((s.data.dropWhile isJsSpace).reverse.dropWhile isJsSpace).reverse⟩

/-- The regex replace in `BusManager.normalizeId`:
`str.replace(/^0+(?=\d)/, "")` strips the longest run of leading zeros
that is still followed by a digit. -/
def stripLeadingZeros (s : String) : String :=
  let l := s.data
  let z := (l.takeWhile (fun c => c == '0')).length
  if z = 0 then s
  else
    match l.drop z with
    | c :: _ => if c.isDigit then ⟨l.drop z⟩ else if 2 ≤ z then ⟨l.drop (z - 1)⟩ else s
    | [] => ⟨l.drop (z - 1)⟩

/-- `BusManager.normalizeId`: `null`/`undefined` give `null`; otherwise
stringify, trim, reject the empty string, and strip leading zeros. -/
def normalizeId : Option JVal → Option String
  | none => none
  | some v =>
    let str := jsTrim v.toJsString
    if str = "" then none else some (stripLeadingZeros str)

/-- `String#padStart(3, "0")`. -/
def pad3 (s : String) : String :=
  ⟨List.replicate (3 - s.length) '0' ++ s.data⟩

/-- `BusManager.nextRequestId`: returns the assigned id together with the
updated `nextIdValue` counter. -/
def nextRequestId (nextIdValue : Nat) : String × Nat :=
  (pad3 (toString (nextIdValue % 1000)), (nextIdValue + 1) % 1000)

/-- The object spread `\x7b...payload, id: v\x7d`: an existing `id` key keeps its
position and takes the new value, otherwise `id` is appended last. -/
def setId (o : JObj) (v : JVal) : JObj :=
  if (o.find? (fun p => p.1 == "id")).isSome then
    o.map (fun p => if p.1 == "id" then (p.1, v) else p)
  else o ++ [("id", v)]

/-- One `PendingRequest` of `BusManager` (the promise callbacks are
represented by recording the outcome against `rid`, the arrival index). -/
structure Pending where
  rid : Nat
  id : String
  payload : JObj
  timeoutMs : Nat
  deriving DecidableEq, Repr

/-- How a request's promise settled. -/
inductive Outcome where
  | resolved (m : JObj)
  | rejected (e : String)
  deriving DecidableEq, Repr

/-- The observable state of one `BusManager` over its transport.
`inflight` holds the requests whose `sendCommand` call has started but not
yet returned; `timers` the armed, not-yet-fired, not-yet-cleared timeout
timers; `timerOf` the `timer` field of each request object; `tx` the
serialized lines handed to the transport in dispatch order. -/
structure BusState where
  delim : String
  queue : List Pending
  current : Option Pending
  nextIdValue : Nat
  nextRid : Nat
  inflight : List Pending
  timers : List (Nat × Pending)
  nextTimerId : Nat
  timerOf : List (Nat × Nat)
  tx : List String
  txOrder : List Nat
  outcomes : List (Nat × Outcome)
  deriving DecidableEq, Repr

/-- `BusManager.processQueue` up to its suspension point: no-op when a
request is current, otherwise shift the queue head, mark it current and
start its transmission. -/
def processQueue (s : BusState) : BusState :=
  match s.current with
  | some _ => s
  | none =>
    match s.queue with
    | [] => s
    | next :: rest =>
      { s with
        queue := rest
        current := some next
        inflight := s.inflight ++ [next]
        tx := s.tx ++ [stringify next.payload ++ s.delim]
        txOrder := s.txOrder ++ [next.rid] }

/-- The timers left alive after `clearTimeout(this.current.timer)`. -/
def clearedTimers (s : BusState) (cur : Pending) : List (Nat × Pending) :=
  match List.lookup cur.rid s.timerOf with
  | some t => s.timers.filter (fun p => p.1 != t)
  | none => s.timers

/-- `BusManager.resolveCurrent`: clear the current request's timer, clear
`current`, settle the promise, and run `processQueue` again. -/
def resolveCurrent (s : BusState) (err : Option String) (result : Option JObj) : BusState :=
  match s.current with
  | none => s
  | some cur =>
    let out : Outcome :=
      match err with
      | some e => Outcome.rejected e
      | none => Outcome.resolved (result.getD [])
    processQueue
      { s with
        current := none
        timers := clearedTimers s cur
        outcomes := s.outcomes ++ [(cur.rid, out)] }

/-- `BusManager.request`: take `payload.id` when present, otherwise assign
the next rotating id; enqueue and trigger `processQueue`. -/
def requestStep (s : BusState) (payload : JObj) (timeoutMs : Nat) : BusState :=
  let idAndCounter : String × Nat :=
    match JObj.get payload "id" with
    | some (JVal.str i) => (i, s.nextIdValue)
    | _ => nextRequestId s.nextIdValue
  let packet := setId payload (JVal.str idAndCounter.1)
  let pend : Pending :=
    { rid := s.nextRid, id := idAndCounter.1, payload := packet, timeoutMs := timeoutMs }
  processQueue
    { s with
      nextIdValue := idAndCounter.2
      nextRid := s.nextRid + 1
      queue := s.queue ++ [pend] }

/-- Continuation of `processQueue` after `await sendCommand` succeeds:
the transmission is over and `next.timer = setTimeout(...)` arms the
per-request timeout (even when `next` is no longer current). -/
def sendOkStep (s : BusState) (r : Pending) : BusState :=
  let t := s.nextTimerId
  { s with
    inflight := s.inflight.filter (fun p => p.rid != r.rid)
    timers := s.timers ++ [(t, r)]
    timerOf := (r.rid, t) :: s.timerOf
    nextTimerId := t + 1 }

/-- Continuation of `processQueue` after `await sendCommand` rejects:
`resolveCurrent(err, undefined)`. -/
def sendErrStep (s : BusState) (r : Pending) (e : String) : BusState :=
  resolveCurrent { s with inflight := s.inflight.filter (fun p => p.rid != r.rid) } (some e) none

/-- The correlation-id chain of `BusManager.handleMessage`:
`msg.replyTo ?? msg.id ?? msg.reply_to ?? msg.responseTo`. -/
def extractCorrelation (m : JObj) : Option JVal :=
  match JObj.get m "replyTo" with
  | some v => some v
  | none =>
    match JObj.get m "id" with
    | some v => some v
    | none =>
      match JObj.get m "reply_to" with
      | some v => some v
      | none => JObj.get m "responseTo"

/-- `BusManager.handleMessage` on an inbound (object) message. -/
def msgStep (s : BusState) (m : JObj) : BusState :=
  match s.current with
  | none => s
  | some cur =>
    match normalizeId (extractCorrelation m) with
    | none => s
    | some replyTo =>
      if normalizeId (some (JVal.str cur.id)) = some replyTo then
        resolveCurrent s none (some m)
      else s

/-- The timeout error text of `BusManager.handleTimeout`. -/
def timeoutErrorText (id : String) (timeoutMs : Nat) : String :=
  "RS485 request " ++ id ++ " timed out after " ++ toString timeoutMs ++ "ms"

/-- `BusManager.handleTimeout`: reject whatever request is current. -/
def handleTimeout (s : BusState) : BusState :=
  match s.current with
  | none => s
  | some cur => resolveCurrent s (some (timeoutErrorText cur.id cur.timeoutMs)) none

/-- Expiry of timer `t`: the timer leaves the live set, then its callback
`() => this.handleTimeout()` runs. -/
def timerFireStep (s : BusState) (t : Nat) : BusState :=
  handleTimeout { s with timers := s.timers.filter (fun p => p.1 != t) }

/-- Event-loop events the machine can service. -/
inductive Ev where
  | req (payload : JObj) (timeoutMs : Nat)
  | sendOk (rid : Nat)
  | sendErr (rid : Nat) (e : String)
  | msg (m : JObj)
  | timer (t : Nat)
  deriving DecidableEq, Repr

/-- One event-loop step; completion events for sends that are not in
flight and expirations of timers that are not live are not serviceable. -/
def step (s : BusState) : Ev → BusState
  | Ev.req p tms => requestStep s p tms
  | Ev.sendOk rid =>
    match s.inflight.find? (fun p => p.rid == rid) with
    | some r => sendOkStep s r
    | none => s
  | Ev.sendErr rid e =>
    match s.inflight.find? (fun p => p.rid == rid) with
    | some r => sendErrStep s r e
    | none => s
  | Ev.msg m => msgStep s m
  | Ev.timer t => if (s.timers.find? (fun p => p.1 == t)).isSome then timerFireStep s t else s

/-- Run a sequence of event-loop steps. -/
def run (s : BusState) (evs : List Ev) : BusState :=
  List.foldl step s evs

/-- A fresh `BusManager` over a transport with the given line delimiter. -/
def initState (delim : String) : BusState :=
  { delim := delim, queue := [], current := none, nextIdValue := 0, nextRid := 0,
    inflight := [], timers := [], nextTimerId := 0, timerOf := [], tx := [],
    txOrder := [], outcomes := [] }

/-- Which direction-control GPIO objects were configured by
`ensureControlPins` (each may be absent), plus RE polarity. -/
structure PinSetup where
  legacy : Bool
  driver : Bool
  receiver : Bool
  receiverActiveLow : Bool
  deriving DecidableEq, Repr

/-- The levels currently driven on the three possible lines. -/
structure PinLevels where
  legacyLevel : Nat
  driverLevel : Nat
  receiverLevel : Nat
  deriving DecidableEq, Repr

/-- Observable actions of `sendRaw` in program order. -/
inductive Act where
  | ensurePort
  | setPin (label : String) (level : Nat)
  | write (bytes : String)
  | drain
  | emitTx (bytes : String)
  | sleep (ms : Nat)
  deriving DecidableEq, Repr

/-- `RS485Handler.driveTransceiver`: DE (or the legacy tied DE/RE pin)
follows `transmit`; RE is driven to its active level when receiving and
to the inactive level when transmitting. -/
def driveTransceiver (cfg : PinSetup) (transmit : Bool) (p : PinLevels) :
    PinLevels × List Act :=
  let deLevel : Nat := if transmit then 1 else 0
  let afterDe : PinLevels × List Act :=
    if cfg.driver then
      ({ p with driverLevel := deLevel }, [Act.setPin "DE" deLevel])
    else if cfg.legacy then
      ({ p with legacyLevel := deLevel }, [Act.setPin "DE/RE" deLevel])
    else (p, [])
  if cfg.receiver then
    let activeLevel : Nat := if cfg.receiverActiveLow then 0 else 1
    let inactiveLevel : Nat := if activeLevel = 1 then 0 else 1
    let level := if transmit then inactiveLevel else activeLevel
    ({ afterDe.1 with receiverLevel := level }, afterDe.2 ++ [Act.setPin "RE" level])
  else afterDe

/-- How the write/drain pair inside `sendRaw` turns out. -/
inductive WriteOutcome where
  | ok
  | writeErr (e : String)
  | drainErr (e : String)
  deriving DecidableEq, Repr

/-- `RS485Handler.sendRaw` with the port already ready: empty/falsy
payloads return at once; otherwise assert transmit, write and drain
(each may fail), and in the `finally` block restore receive and observe
the turnaround delay. The returned error, if any, is rethrown to the
caller after the `finally` block ran. -/
def sendRaw (cfg : PinSetup) (turnaroundDelayMs : Nat) (p : PinLevels)
    (payload : String) (w : WriteOutcome) :
    PinLevels × List Act × Option String :=
  if payload = "" then (p, [], none)
  else
    let txSwitch := driveTransceiver cfg true p
    let midAndErr : List Act × Option String :=
      match w with
      | WriteOutcome.ok => ([Act.write payload, Act.drain, Act.emitTx payload], none)
      | WriteOutcome.writeErr e => ([Act.write payload], some e)
      | WriteOutcome.drainErr e => ([Act.write payload, Act.drain], some e)
    let rxSwitch := driveTransceiver cfg false txSwitch.1
    let delayActs : List Act := if 0 < turnaroundDelayMs then [Act.sleep turnaroundDelayMs] else []
    (rxSwitch.1,
      [Act.ensurePort] ++ txSwitch.2 ++ midAndErr.1 ++ rxSwitch.2 ++ delayActs,
      midAndErr.2)

/-- The receive-direction pin state established by
`driveTransceiver(false)`: DE (or the legacy pin) low, RE at its
configured active level. -/
def receiveLevels (cfg : PinSetup) (p : PinLevels) : Prop :=
  (cfg.driver = true → p.driverLevel = 0) ∧
  (cfg.driver = false → cfg.legacy = true → p.legacyLevel = 0) ∧
  (cfg.receiver = true → p.receiverLevel = (if cfg.receiverActiveLow then 0 else 1))

/-- Events the handler emits. -/
inductive HEvent where
  | statusEv (s : String)
  | errorEv (e : String)
  deriving DecidableEq, Repr

/-- The lifecycle-relevant state of one `RS485Handler`. -/
structure HandlerState where
  portOpen : Bool
  status : String
  destroyed : Bool
  autoReconnect : Bool
  reconnectTimerArmed : Bool
  events : List HEvent
  deriving DecidableEq, Repr

/-- `RS485Handler.setStatus`: skip when unchanged and no error; otherwise
store the status, emit it, and emit the error when present. -/
def setStatus (h : HandlerState) (st : String) (err : Option String) : HandlerState :=
  if h.status = st ∧ err = none then h
  else
    { h with
      status := st
      events := h.events ++ [HEvent.statusEv st] ++
        (match err with
         | some e => [HEvent.errorEv e]
         | none => []) }

/-- `RS485Handler.scheduleReconnect`: arm the (single) reconnect timer
unless destroyed, auto-reconnect disabled, or already armed. -/
def scheduleReconnect (h : HandlerState) : HandlerState :=
  if h.destroyed = true ∨ h.autoReconnect = false then h
  else if h.reconnectTimerArmed then h
  else { h with reconnectTimerArmed := true }

/-- Result of the underlying `port.open` callback. -/
inductive OpenResult where
  | ok
  | fail (e : String)
  deriving DecidableEq, Repr

/-- `RS485Handler.openPort`: no-op when already open; on open failure set
status `fail` with the error, schedule the reconnect loop, and rethrow
the error (as a rejected promise); on success attach listeners and set
status `connected`. -/
def openPort (h : HandlerState) (r : OpenResult) : HandlerState × Except String Unit :=
  if h.portOpen then (h, Except.ok ())
  else
    match r with
    | OpenResult.ok => ({ setStatus h "connected" none with portOpen := true }, Except.ok ())
    | OpenResult.fail e =>
      let h1 := setStatus h "fail" (some e)
      let h2 := scheduleReconnect h1
      (h2, Except.error e)

/-- The reconnect timer callback: disarm, retry `openPort`, and swallow a
failure by emitting it as an error event. -/
def reconnectTick (h : HandlerState) (r : OpenResult) : HandlerState :=
  if h.reconnectTimerArmed then
    let h1 : HandlerState := { h with reconnectTimerArmed := false }
    let opened := openPort h1 r
    match opened.2 with
    | Except.ok _ => opened.1
    | Except.error e => { opened.1 with events := opened.1.events ++ [HEvent.errorEv e] }
  else h

/-- `RemoteStatus` as kept in `RS485_STATUS.remote`. -/
structure RemoteStatus where
  connected : Bool
  device : Option String
  speed : Option Int
  lastHeartbeat : Option Nat
  connectedAt : Option Nat
  disconnectedAt : Option Nat
  reason : Option String
  deriving DecidableEq, Repr

/-- The worker's `RS485_STATUS` record. -/
structure GlobalStatus where
  status : String
  error : Option String
  remote : RemoteStatus
  deriving DecidableEq, Repr

/-- `markRemoteDisconnected(reason, overrideError)` at time `now`:
returns whether a transition happened together with the new state. -/
def markRemoteDisconnected (g : GlobalStatus) (reason : Option String)
    (overrideError : Bool) (now : Nat) : Bool × GlobalStatus :=
  if g.remote.connected = false then
    (false,
      match reason with
      | some r => { g with remote := { g.remote with reason := some r } }
      | none => g)
  else
    let rem := { g.remote with connected := false, disconnectedAt := some now, reason := reason }
    let g1 := { g with remote := rem }
    let g2 := if g1.status = "connected" then { g1 with status := "disconnected" } else g1
    let g3 :=
      match reason with
      | some r => if overrideError || g2.error.isNone then { g2 with error := some r } else g2
      | none => g2
    (true, g3)

/-- The interval of the heartbeat monitor:
`Math.max(1000, Math.floor(HEARTBEAT_TIMEOUT_MS / 2))`. -/
def monitorInterval (hbTimeout : Nat) : Nat :=
  max 1000 (hbTimeout / 2)

/-- One tick of the heartbeat monitor armed by `startHeartbeatMonitor`:
when a heartbeat has been seen, the remote is connected, and the age
exceeds the timeout, mark the remote disconnected with reason
"Remote heartbeat timeout". -/
def monitorTick (hbTimeout : Nat) (now : Nat) (g : GlobalStatus) : GlobalStatus :=
  match g.remote.lastHeartbeat with
  | none => g
  | some lhb =>
    if g.remote.connected = false then g
    else if hbTimeout < now - lhb then
      (markRemoteDisconnected g (some "Remote heartbeat timeout") true now).2
    else g

/-- The worker's `handleRemotePayload`: `hello` and `heartbeat` messages
mark the remote connected, refresh `lastHeartbeat`, clear the stale
fields, and force the link status to `connected`. -/
def handleRemotePayload (g : GlobalStatus) (m : JObj) (now : Nat) : GlobalStatus :=
  match JObj.get m "hello" with
  | some (JVal.str name) =>
    let rem0 := g.remote
    let rem1 := { rem0 with device := some name }
    let rem2 :=
      match JObj.get m "speed" with
      | some (JVal.num sp) => { rem1 with speed := some sp }
      | _ => rem1
    let rem3 :=
      if rem2.connected then rem2
      else { rem2 with connected := true, connectedAt := some now }
    let rem4 := { rem3 with lastHeartbeat := some now, disconnectedAt := none, reason := none }
    { g with remote := rem4, status := "connected", error := none }
  | _ =>
    match JObj.get m "heartbeat" with
    | some (JVal.str name) =>
      let rem0 := g.remote
      let rem1 :=
        if rem0.connected then rem0
        else { rem0 with connected := true, connectedAt := some now }
      let rem2 := if rem1.device.isSome then rem1 else { rem1 with device := some name }
      let rem3 := { rem2 with lastHeartbeat := some now, disconnectedAt := none, reason := none }
      { g with remote := rem3, status := "connected", error := none }
    | _ => g

/-- A worker that has seen nothing from the remote yet. -/
def initGlobal : GlobalStatus :=
  { status := "disconnected", error := none,
    remote := { connected := false, device := none, speed := none, lastHeartbeat := none,
                connectedAt := none, disconnectedAt := none, reason := none } }

/-- The counter of `nextRequestId` after `k` assignments from a fresh
manager (`nextIdValue = 0`). -/
def nextIdIter : Nat → Nat
  | 0 => 0
  | k + 1 => (nextIdIter k + 1) % 1000

/-- The id assigned to the `k`-th request (0-based) that lacks an id. -/
def assignedId (k : Nat) : String :=
  (nextRequestId (nextIdIter k)).1

/-- Trace refuting single-in-flight: two requests are submitted, and the
matching reply for the first arrives while its `sendCommand` is still
awaited (no `sendOk 0` has been serviced yet). -/
def c1Trace : List Ev :=
  [Ev.req [("cmd", JVal.str "ping")] 500,
   Ev.req [("cmd", JVal.str "who")] 500,
   Ev.msg [("replyTo", JVal.str "000")]]

/-- The manager state after `request(\x7bcmd:"read", id:"005"\x7d)`. -/
def c5State : BusState :=
  run (initState "\n") [Ev.req [("cmd", JVal.str "read"), ("id", JVal.str "005")] 500]

/-- The request that is current in `c5State`. -/
def c5Cur : Pending :=
  { rid := 0, id := "005",
    payload := [("cmd", JVal.str "read"), ("id", JVal.str "005")], timeoutMs := 500 }

/-- The manager state after a first `request(\x7bcmd:"ping"\x7d)`. -/
def c4Busy : BusState :=
  run (initState "\n") [Ev.req [("cmd", JVal.str "ping")] 500]

/-- The request current in `c4Busy`. -/
def c4Cur : Pending :=
  { rid := 0, id := "000",
    payload := [("cmd", JVal.str "ping"), ("id", JVal.str "000")], timeoutMs := 500 }

/-- The manager state after `request(\x7bcmd:"who"\x7d, 100)` whose transmission
succeeded (timeout timer 0 armed, no reply yet). -/
def c7State : BusState :=
  run (initState "\n") [Ev.req [("cmd", JVal.str "who")] 100, Ev.sendOk 0]

/-- The request current in `c7State`. -/
def c7Cur : Pending :=
  { rid := 0, id := "000",
    payload := [("cmd", JVal.str "who"), ("id", JVal.str "000")], timeoutMs := 100 }

/-- A DE/RE two-pin setup with RE active-low, as in the default options. -/
def c2Cfg : PinSetup :=
  { legacy := false, driver := true, receiver := true, receiverActiveLow := true }

/-- Pins resting in the receive direction. -/
def c2Pins : PinLevels :=
  { legacyLevel := 0, driverLevel := 0, receiverLevel := 0 }

/-- A freshly constructed handler with auto-reconnect enabled. -/
def c9Handler : HandlerState :=
  { portOpen := false, status := "disconnected", destroyed := false,
    autoReconnect := true, reconnectTimerArmed := false, events := [] }

/-- The worker state right after receiving `\x7bhello:"ctrl-1"\x7d` at t=100. -/
def c8Hello : GlobalStatus :=
  handleRemotePayload initGlobal [("hello", JVal.str "ctrl-1")] 100

/-! ## Theorems -/

/-! ## Helper lemmas -/
theorem processQueue_char (s : BusState) (hc : s.current = none) :
    (processQueue s).outcomes = s.outcomes ∧
    (processQueue s).current = s.queue.head? ∧
    (processQueue s).queue = s.queue.tail ∧
    (processQueue s).tx = s.tx ++
      (match s.queue with
       | [] => []
       | n :: _ => [stringify n.payload ++ s.delim]) := by
  unfold processQueue
  rw [hc]
  cases hq : s.queue with
  | nil => simp [hq, hc]
  | cons a l => simp [hq]

theorem processQueue_outcomes (s : BusState) : (processQueue s).outcomes = s.outcomes := by
  unfold processQueue
  cases s.current with
  | none => cases s.queue <;> rfl
  | some c => rfl

theorem nextIdIter_eq (k : Nat) : nextIdIter k = k % 1000 := by
  induction k with
  | zero => rfl
  | succ k ih =>
    show (nextIdIter k + 1) % 1000 = (k + 1) % 1000
    rw [ih]
    omega

/-- Claim C1: the code violates single-in-flight. After `c1Trace`, the
reply delivered at the suspension point of `processQueue` resolved
request 0 and immediately dispatched request 1, so the transmissions of
request 0 and request 1 are simultaneously in flight (`inflight` holds
both), while the claim allows exactly one in-flight transmission. -/
theorem claim_C1 :
    (run (initState "\n") c1Trace).inflight.length = 2 ∧
    (run (initState "\n") c1Trace).inflight.map Pending.rid = [0, 1] ∧
    (run (initState "\n") c1Trace).outcomes =
      [(0, Outcome.resolved [("replyTo", JVal.str "000")])] := by
  decide

/-- Claim C3: on a fresh manager, `request(\x7bcmd:"ping"\x7d)` transmits
exactly the line `\x7b"cmd":"ping","id":"000"\x7d` plus the newline delimiter,
and a subsequent `\x7breplyTo:"000", pong:true\x7d` message resolves the request
with the full message. -/
theorem claim_C3 :
    (run (initState "\n")
      [Ev.req [("cmd", JVal.str "ping")] 500, Ev.sendOk 0,
       Ev.msg [("replyTo", JVal.str "000"), ("pong", JVal.bool true)]]).tx =
      ["\x7b\"cmd\":\"ping\",\"id\":\"000\"\x7d\n"] ∧
    (run (initState "\n")
      [Ev.req [("cmd", JVal.str "ping")] 500, Ev.sendOk 0,
       Ev.msg [("replyTo", JVal.str "000"), ("pong", JVal.bool true)]]).outcomes =
      [(0, Outcome.resolved [("replyTo", JVal.str "000"), ("pong", JVal.bool true)])] := by
  decide

/-- Claim C5: correlation ids are compared after stripping leading zeros,
so with a current request whose id is "005" an inbound `replyTo:"5"`
matches and resolves that pending request with the message. -/
theorem claim_C5 (s : BusState) (cur : Pending) (h : s.current = some cur)
    (hid : cur.id = "005") :
    normalizeId (some (JVal.str "5")) = normalizeId (some (JVal.str "005")) ∧
    (msgStep s [("replyTo", JVal.str "5")]).outcomes =
      s.outcomes ++ [(cur.rid, Outcome.resolved [("replyTo", JVal.str "5")])] := by
  constructor
  · decide
  · have hext : normalizeId (extractCorrelation [("replyTo", JVal.str "5")]) = some "5" := by
      decide
    have hexp : normalizeId (some (JVal.str cur.id)) = some "5" := by
      rw [hid]; decide
    simp only [msgStep, h, hext, hexp, resolveCurrent, eq_self_iff_true, ite_true,
      Option.getD_some, processQueue_outcomes]

/-- Witness for C5 at a concrete state whose current request has id "005". -/
theorem claim_C5_witness :
    normalizeId (some (JVal.str "5")) = normalizeId (some (JVal.str "005")) ∧
    (msgStep c5State [("replyTo", JVal.str "5")]).outcomes =
      c5State.outcomes ++ [(c5Cur.rid, Outcome.resolved [("replyTo", JVal.str "5")])] :=
  claim_C5 c5State c5Cur (by decide) (by decide)

/-- Claim C6: requests lacking an id get the zero-padded three-digit
decimal ids "000", "001", ..., "999" in order, wrapping after 1000
assignments. -/
theorem claim_C6 (k : Nat) :
    assignedId k = pad3 (toString (k % 1000)) ∧
    assignedId (k + 1000) = assignedId k := by
  have base : ∀ n : Nat, assignedId n = pad3 (toString (n % 1000)) := by
    intro n
    unfold assignedId nextRequestId
    rw [nextIdIter_eq]
    have hm : n % 1000 % 1000 = n % 1000 := by omega
    rw [hm]
  refine ⟨base k, ?_⟩
  rw [base (k + 1000), base k]
  have hm : (k + 1000) % 1000 = k % 1000 := by omega
  rw [hm]

/-- Claim C10: `sendRaw` on an empty/falsy payload is a complete no-op:
no port open attempt, no pin toggle, no write, no turnaround delay, and
no error. -/
theorem claim_C10 (cfg : PinSetup) (d : Nat) (p : PinLevels) (w : WriteOutcome) :
    sendRaw cfg d p "" w = (p, [], none) := rfl

/-- Claim C4: handling an inbound message when no request is current is a
no-op (nothing is buffered); the correlation id is the first present of
`replyTo`, `id`, `reply_to`, `responseTo`; a message yielding no id is
ignored; and a normalized-id mismatch leaves the state untouched. -/
theorem claim_C4 (s : BusState) (m : JObj) :
    (s.current = none → msgStep s m = s) ∧
    (∀ v, JObj.get m "replyTo" = some v → extractCorrelation m = some v) ∧
    (JObj.get m "replyTo" = none → ∀ v, JObj.get m "id" = some v →
      extractCorrelation m = some v) ∧
    (JObj.get m "replyTo" = none → JObj.get m "id" = none → ∀ v,
      JObj.get m "reply_to" = some v → extractCorrelation m = some v) ∧
    (JObj.get m "replyTo" = none → JObj.get m "id" = none →
      JObj.get m "reply_to" = none → extractCorrelation m = JObj.get m "responseTo") ∧
    (normalizeId (extractCorrelation m) = none → msgStep s m = s) ∧
    (∀ cur r, s.current = some cur → normalizeId (extractCorrelation m) = some r →
      normalizeId (some (JVal.str cur.id)) ≠ some r → msgStep s m = s) := by
  refine ⟨?_, ?_, ?_, ?_, ?_, ?_, ?_⟩
  · intro hc
    simp [msgStep, hc]
  · intro v hv
    simp [extractCorrelation, hv]
  · intro h0 v hv
    simp [extractCorrelation, h0, hv]
  · intro h0 h1 v hv
    simp [extractCorrelation, h0, h1, hv]
  · intro h0 h1 h2
    simp [extractCorrelation, h0, h1, h2]
  · intro hn
    cases hc : s.current <;> simp [msgStep, hc, hn]
  · intro cur r hc hr hne
    simp [msgStep, hc, hr, hne]

/-- Witness for C4: a message into an idle manager, the alias order on a
message carrying both `replyTo` and `id`, a message with no correlation
field, and a mismatching reply, each at concrete inputs. -/
theorem claim_C4_witness :
    (msgStep (initState "\n") [("pong", JVal.bool true)] = initState "\n") ∧
    (extractCorrelation [("replyTo", JVal.str "7"), ("id", JVal.str "9")] =
      some (JVal.str "7")) ∧
    (msgStep c4Busy [("pong", JVal.bool true)] = c4Busy) ∧
    (msgStep c4Busy [("replyTo", JVal.str "9")] = c4Busy) :=
  ⟨(claim_C4 (initState "\n") [("pong", JVal.bool true)]).1 rfl,
   (claim_C4 (initState "\n") [("replyTo", JVal.str "7"), ("id", JVal.str "9")]).2.1
     (JVal.str "7") (by decide),
   (claim_C4 c4Busy [("pong", JVal.bool true)]).2.2.2.2.2.1 (by decide),
   (claim_C4 c4Busy [("replyTo", JVal.str "9")]).2.2.2.2.2.2 c4Cur "9"
     (by decide) (by decide) (by decide)⟩

/-- Claim C7: a timeout firing while a request is current rejects exactly
that request with the error text naming its id and its configured
timeoutMs, and the queue advances to the next pending request (whose
dispatch is the only new transport activity). -/
theorem claim_C7 (s : BusState) (cur : Pending) (t : Nat) (h : s.current = some cur)
    (ht : (s.timers.find? (fun p => p.1 == t)).isSome = true) :
    (step s (Ev.timer t)).outcomes =
      s.outcomes ++ [(cur.rid, Outcome.rejected (timeoutErrorText cur.id cur.timeoutMs))] ∧
    (step s (Ev.timer t)).current = s.queue.head? ∧
    (step s (Ev.timer t)).queue = s.queue.tail ∧
    (step s (Ev.timer t)).tx = s.tx ++
      (match s.queue with
       | [] => []
       | n :: _ => [stringify n.payload ++ s.delim]) := by
  have hstep : step s (Ev.timer t) =
      processQueue
        { s with
          current := none
          timers := clearedTimers
            { s with timers := s.timers.filter (fun p => p.1 != t) } cur
          outcomes := s.outcomes ++
            [(cur.rid, Outcome.rejected (timeoutErrorText cur.id cur.timeoutMs))] } := by
    simp only [step, ht, ite_true, timerFireStep, handleTimeout, h, resolveCurrent]
  rw [hstep]
  exact processQueue_char _ rfl

/-- Witness for C7: `request(\x7bcmd:"who"\x7d, 100)` with no reply rejects with
the timeout error naming id "000" and 100ms, and the (empty) queue
advances with no further transport activity. -/
theorem claim_C7_witness :
    (step c7State (Ev.timer 0)).outcomes =
      c7State.outcomes ++
        [(0, Outcome.rejected "RS485 request 000 timed out after 100ms")] ∧
    (step c7State (Ev.timer 0)).current = c7State.queue.head? ∧
    (step c7State (Ev.timer 0)).queue = c7State.queue.tail ∧
    (step c7State (Ev.timer 0)).tx = c7State.tx :=
  claim_C7 c7State c7Cur 0 (by decide) (by decide)

theorem receiveLevels_driveTransceiver (cfg : PinSetup) (p : PinLevels) :
    receiveLevels cfg (driveTransceiver cfg false p).1 := by
  rcases cfg with ⟨lg, dr, rc, al⟩
  cases lg <;> cases dr <;> cases rc <;> cases al <;>
    simp [driveTransceiver, receiveLevels]

/-- Claim C2: for a non-empty payload, `sendRaw` restores the
receive-direction pin state on every exit path (write success, write
error, drain error), the final pin state is identical regardless of the
write outcome, and with a positive turnaround delay the delay is observed
after the switch back to receive, as the last action before returning. -/
theorem claim_C2 (cfg : PinSetup) (d : Nat) (p : PinLevels) (payload : String)
    (w w2 : WriteOutcome) (hp : payload ≠ "") (hd : 0 < d) :
    receiveLevels cfg (sendRaw cfg d p payload w).1 ∧
    (sendRaw cfg d p payload w).1 = (sendRaw cfg d p payload w2).1 ∧
    (∃ pre, (sendRaw cfg d p payload w).2.1 =
      pre ++ (driveTransceiver cfg false (driveTransceiver cfg true p).1).2 ++
        [Act.sleep d]) := by
  have hun : ∀ w3 : WriteOutcome, sendRaw cfg d p payload w3 =
      ((driveTransceiver cfg false (driveTransceiver cfg true p).1).1,
       [Act.ensurePort] ++ (driveTransceiver cfg true p).2 ++
         (match w3 with
          | WriteOutcome.ok => [Act.write payload, Act.drain, Act.emitTx payload]
          | WriteOutcome.writeErr _ => [Act.write payload]
          | WriteOutcome.drainErr _ => [Act.write payload, Act.drain]) ++
         (driveTransceiver cfg false (driveTransceiver cfg true p).1).2 ++
         [Act.sleep d],
       (match w3 with
        | WriteOutcome.ok => none
        | WriteOutcome.writeErr e => some e
        | WriteOutcome.drainErr e => some e)) := by
    intro w3
    cases w3 <;> simp [sendRaw, hp, hd]
  refine ⟨?_, ?_, ?_⟩
  · rw [hun w]
    exact receiveLevels_driveTransceiver cfg _
  · rw [hun w, hun w2]
  · rw [hun w]
    refine ⟨[Act.ensurePort] ++ (driveTransceiver cfg true p).2 ++
      (match w with
       | WriteOutcome.ok => [Act.write payload, Act.drain, Act.emitTx payload]
       | WriteOutcome.writeErr _ => [Act.write payload]
       | WriteOutcome.drainErr _ => [Act.write payload, Act.drain]), ?_⟩
    simp [List.append_assoc]

/-- Witness for C2 at a failing write with the default 2ms turnaround. -/
theorem claim_C2_witness :
    receiveLevels c2Cfg (sendRaw c2Cfg 2 c2Pins "ping" (WriteOutcome.writeErr "EIO")).1 ∧
    (sendRaw c2Cfg 2 c2Pins "ping" (WriteOutcome.writeErr "EIO")).1 =
      (sendRaw c2Cfg 2 c2Pins "ping" WriteOutcome.ok).1 ∧
    (∃ pre, (sendRaw c2Cfg 2 c2Pins "ping" (WriteOutcome.writeErr "EIO")).2.1 =
      pre ++ (driveTransceiver c2Cfg false (driveTransceiver c2Cfg true c2Pins).1).2 ++
        [Act.sleep 2]) :=
  claim_C2 c2Cfg 2 c2Pins "ping" (WriteOutcome.writeErr "EIO") WriteOutcome.ok
    (by decide) (by decide)

theorem scheduleReconnect_fields (h : HandlerState) :
    (scheduleReconnect h).status = h.status ∧
    (scheduleReconnect h).events = h.events := by
  unfold scheduleReconnect
  split
  · exact ⟨rfl, rfl⟩
  · split
    · exact ⟨rfl, rfl⟩
    · exact ⟨rfl, rfl⟩

theorem scheduleReconnect_armed (h : HandlerState) (hd : h.destroyed = false)
    (ha : h.autoReconnect = true) :
    (scheduleReconnect h).reconnectTimerArmed = true := by
  cases hb : h.reconnectTimerArmed <;>
    simp [scheduleReconnect, hd, ha, hb]

/-- Claim C9: a failed port open sets the link status to `fail`, surfaces
the error as an event, arms the reconnect loop when auto-reconnect is
enabled (and the handler is not destroyed), and hands the error back as a
rejected promise value rather than crashing anything. -/
theorem claim_C9 (h : HandlerState) (e : String) (hopen : h.portOpen = false) :
    (openPort h (OpenResult.fail e)).1.status = "fail" ∧
    HEvent.errorEv e ∈ (openPort h (OpenResult.fail e)).1.events ∧
    (h.destroyed = false → h.autoReconnect = true →
      (openPort h (OpenResult.fail e)).1.reconnectTimerArmed = true) ∧
    (openPort h (OpenResult.fail e)).2 = Except.error e := by
  have hset : setStatus h "fail" (some e) =
      { h with
        status := "fail"
        events := h.events ++ [HEvent.statusEv "fail"] ++ [HEvent.errorEv e] } := by
    unfold setStatus
    rw [if_neg (by simp)]
  have hopen2 : openPort h (OpenResult.fail e) =
      (scheduleReconnect (setStatus h "fail" (some e)), Except.error e) := by
    unfold openPort
    rw [hopen]
    rfl
  rw [hopen2, hset]
  refine ⟨?_, ?_, ?_, rfl⟩
  · rw [(scheduleReconnect_fields _).1]
  · rw [(scheduleReconnect_fields _).2]
    simp
  · intro hd ha
    exact scheduleReconnect_armed _ hd ha

/-- Witness for C9 at a concrete failed open. -/
theorem claim_C9_witness :
    (openPort c9Handler (OpenResult.fail "ENOENT")).1.status = "fail" ∧
    HEvent.errorEv "ENOENT" ∈ (openPort c9Handler (OpenResult.fail "ENOENT")).1.events ∧
    (openPort c9Handler (OpenResult.fail "ENOENT")).1.reconnectTimerArmed = true ∧
    (openPort c9Handler (OpenResult.fail "ENOENT")).2 = Except.error "ENOENT" := by
  have hc := claim_C9 c9Handler "ENOENT" rfl
  exact ⟨hc.1, hc.2.1, hc.2.2.1 rfl rfl, hc.2.2.2⟩

/-- Claim C8: the monitor ticks at `max(1000, heartbeatTimeout/2)`, and a
tick finding the remote connected with a stale heartbeat (older than the
timeout) marks it disconnected with reason "Remote heartbeat timeout",
records `disconnectedAt`, and downgrades a `connected` link status to
`disconnected`. -/
theorem claim_C8 (hb : Nat) (g : GlobalStatus) (lhb now : Nat)
    (hc : g.remote.connected = true) (hl : g.remote.lastHeartbeat = some lhb)
    (hage : hb < now - lhb) :
    monitorInterval hb = max 1000 (hb / 2) ∧
    (monitorTick hb now g).remote.connected = false ∧
    (monitorTick hb now g).remote.disconnectedAt = some now ∧
    (monitorTick hb now g).remote.reason = some "Remote heartbeat timeout" ∧
    (monitorTick hb now g).status =
      (if g.status = "connected" then "disconnected" else g.status) := by
  have htick : monitorTick hb now g =
      (markRemoteDisconnected g (some "Remote heartbeat timeout") true now).2 := by
    unfold monitorTick
    rw [hl, hc]
    simp [hage]
  refine ⟨rfl, ?_⟩
  rw [htick]
  unfold markRemoteDisconnected
  rw [hc]
  by_cases hst : g.status = "connected" <;> simp [hst]

/-- Witness for C8: the hello marks the remote connected; a tick at
t=20000 with a 15000ms heartbeat timeout marks it disconnected with the
heartbeat-timeout reason and downgrades the link status. -/
theorem claim_C8_witness :
    c8Hello.remote.connected = true ∧
    monitorInterval 15000 = max 1000 (15000 / 2) ∧
    (monitorTick 15000 20000 c8Hello).remote.connected = false ∧
    (monitorTick 15000 20000 c8Hello).remote.reason = some "Remote heartbeat timeout" ∧
    (monitorTick 15000 20000 c8Hello).status = "disconnected" := by
  have h := claim_C8 15000 c8Hello 100 20000 (by decide) (by decide) (by decide)
  refine ⟨by decide, h.1, h.2.1, h.2.2.2.1, ?_⟩
  have h5 := h.2.2.2.2
  rw [show c8Hello.status = "connected" from by decide] at h5
  simpa using h5
